import Mathlib

/-!
Verification of the Chirpy backend's authentication core
(internal/auth/auth.go) and two HTTP handlers (main.go), as a shallow
embedding in Lean 4.

Modelling conventions:
- Go byte strings are Lean `String`s; where Go's `len` (a byte count)
  matters we use `String.utf8ByteSize`, which is exactly the UTF-8 byte
  count of the string.
- `time.Time` / `time.Duration` are `Int` seconds since the epoch; the
  Go code reads the clock with `time.Now().UTC()`, which we model as an
  explicit `now : Int` parameter.
- Randomness (the bcrypt salt) is an explicit `salt : Nat` parameter.
- Go functions returning `(T, error)` become `T × Option E` (with the
  documented zero value in the first component on error) or `Except E T`,
  matching how each call site consumes the pair.
- External library calls (x/crypto/bcrypt, golang-jwt/jwt/v5, google/uuid)
  are modelled from the libraries' documented contracts at exactly the
  entry points the repository uses; cryptographic primitives (the bcrypt
  KDF, HMAC) are idealised as injective functions of their inputs.
-/

namespace Chirpy

/-! ## Model of golang.org/x/crypto/bcrypt (used by auth.go) -/

/-- Error kinds of the bcrypt library relevant to the entry points used by
auth.go: `ErrMismatchedHashAndPassword` from `CompareHashAndPassword`,
hash-format parse errors (`ErrHashTooShort`, `InvalidHashPrefixError`, ...)
collapsed into one kind, and `ErrPasswordTooLong` from
`GenerateFromPassword` for passwords over 72 bytes. -/
inductive BcryptErr where
  | mismatchedHashAndPassword
  | hashFormat
  | passwordTooLong
  deriving DecidableEq, Repr

/-- The bcrypt key derivation, idealised as an injective function of the
password, the salt and the cost (the real KDF is collision-resistant; we
model it as the identity on its inputs). -/
def bcryptKDF (password : String) (salt cost : Nat) : String × Nat × Nat :=
  (password, salt, cost)

/-- A stored password-hash string. A real bcrypt hash is an opaque string
`$2a$cost$saltkey`; parsing it either recovers the embedded cost, salt and
derived key (`wellFormed`) or fails (`malformed`, covering corrupt or
foreign formats). -/
inductive BHash where
  | wellFormed (cost salt : Nat) (key : String × Nat × Nat)
  | malformed (raw : String)
  deriving DecidableEq, Repr

/-- bcrypt.DefaultCost. -/
def defaultCost : Nat := 10

/-- Model of `bcrypt.GenerateFromPassword(password, cost)`: rejects
passwords longer than 72 bytes with `ErrPasswordTooLong`, otherwise
derives a salted hash embedding the cost and the random salt. -/
def generateFromPassword (password : String) (cost : Nat) (salt : Nat) :
    Except BcryptErr BHash :=
  if 72 < password.utf8ByteSize then .error .passwordTooLong
  else .ok (.wellFormed cost salt (bcryptKDF password salt cost))

/-- Model of `bcrypt.CompareHashAndPassword(hash, password)`: a hash that
does not parse yields a format error; otherwise the key is re-derived from
the candidate password with the embedded salt and cost and compared,
yielding `nil` (here `none`) on a match and
`ErrMismatchedHashAndPassword` otherwise. -/
def compareHashAndPassword (hash : BHash) (password : String) :
    Option BcryptErr :=
  match hash with
  | .malformed _ => some .hashFormat
  | .wellFormed cost salt key =>
      if key = bcryptKDF password salt cost then none
      else some .mismatchedHashAndPassword

/-! ## auth.go: password hashing -/

/-- auth.go `HashPassword`: calls `bcrypt.GenerateFromPassword` with
`bcrypt.DefaultCost` and wraps any error into a formatted message,
returning the empty-string hash in that case; on success returns the hash.
Result models the Go pair `(string, error)` as `Except String BHash`. -/
def HashPassword (password : String) (salt : Nat) : Except String BHash :=
  match generateFromPassword password defaultCost salt with
  | .error _ => .error "error: error creating password hash"
  | .ok hashed => .ok hashed

/-- auth.go `CheckPassword`: calls `bcrypt.CompareHashAndPassword` and
maps every non-nil error — hash-format errors and password mismatch
alike — to the single error `invalid password`; returns `nil` (`none`)
on a match. -/
def CheckPassword (hash : BHash) (password : String) : Option String :=
  match compareHashAndPassword hash password with
  | some _ => some "invalid password"
  | none => none

/-! ## Model of github.com/golang-jwt/jwt/v5 and google/uuid (used by auth.go) -/

/-- JWT signing algorithms: the HMAC family (HS256/HS384/HS512,
`jwt.SigningMethodHMAC`) plus representatives of the other families the
library knows (RSA, ECDSA, and the unsigned `none` method). -/
inductive Alg where
  | HS256
  | HS384
  | HS512
  | RS256
  | ES256
  | algNone
  deriving DecidableEq, Repr

/-- Whether the method is an instance of `*jwt.SigningMethodHMAC` (the
type switch in auth.go's keyfunc). -/
def Alg.isHMAC : Alg → Bool
  | .HS256 | .HS384 | .HS512 => true
  | _ => false

/-- A `uuid.UUID` is an opaque 128-bit value; modelled as `Nat`.
`uuid.Nil` is the zero UUID. -/
def uuidNil : Nat := 0

/-- A string field that may hold the textual form of a UUID. `ofUUID id`
stands for `id.String()`; `raw s` stands for any string that is not the
textual form of a UUID. -/
inductive SubjectStr where
  | ofUUID (id : Nat)
  | raw (s : String)
  deriving DecidableEq, Repr

/-- Model of `uuid.Parse`: recovers the UUID from its textual form and
fails on anything else. -/
def uuidParse : SubjectStr → Option Nat
  | .ofUUID id => some id
  | .raw _ => none

/-- The registered claim set auth.go builds and parses
(`jwt.RegisteredClaims` restricted to the fields it sets). -/
structure RegisteredClaims where
  issuer : String
  issuedAt : Int
  expiresAt : Int
  subject : SubjectStr
  deriving DecidableEq, Repr

/-- A signing key as passed through Go's `interface{}`: auth.go passes a
`string` to `SignedString` in `MakeJWT` and a `[]byte` from the keyfunc in
`ValidateJWT`. -/
inductive Key where
  | str (s : String)
  | bytes (b : String)
  deriving DecidableEq, Repr

/-- An HMAC signature, idealised as an injective function of the
algorithm, the signed content and the key bytes. -/
structure Sig where
  alg : Alg
  claims : RegisteredClaims
  keyBytes : String
  deriving DecidableEq, Repr

/-- The ideal MAC: the signature determined by algorithm, content and key. -/
def hmacSign (alg : Alg) (claims : RegisteredClaims) (keyBytes : String) : Sig :=
  ⟨alg, claims, keyBytes⟩

/-- A serialized token string: either a well-formed compact JWT
(`header.payload.signature` with the declared algorithm, the claims and
the attached signature) or any other string (`malformed`), including the
empty string. -/
inductive TokenString where
  | malformed (s : String)
  | signed (alg : Alg) (claims : RegisteredClaims) (sig : Sig)
  deriving DecidableEq, Repr

/-- Error kinds of jwt/v5 visible through auth.go: `ErrInvalidKeyType`
(HMAC signing with a non-byte-slice key), `ErrTokenMalformed`,
`ErrTokenUnverifiable` (keyfunc returned an error, here auth.go's
`unexpected signing method`), `ErrTokenSignatureInvalid`,
`ErrTokenExpired`, plus auth.go's own `invalid UUID in subject`. -/
inductive JwtError where
  | invalidKeyType
  | tokenMalformed
  | unexpectedSigningMethod
  | tokenSignatureInvalid
  | tokenExpired
  | invalidUUIDSubject
  deriving DecidableEq, Repr

/-- Model of jwt/v5 `Token.SignedString(key)` for a token built with
`jwt.NewWithClaims(method, claims)`: `SigningMethodHMAC.Sign` accepts only
a `[]byte` key and returns `ErrInvalidKeyType` for any other dynamic type
(in particular a Go `string`); with a byte-slice key it attaches the HMAC
of the signing string. -/
def signedString (alg : Alg) (claims : RegisteredClaims) (key : Key) :
    Except JwtError TokenString :=
  match key with
  | .str _ => .error .invalidKeyType
  | .bytes b =>
      if alg.isHMAC then .ok (.signed alg claims (hmacSign alg claims b))
      else .error .invalidKeyType

/-- auth.go `MakeJWT(userID, tokenSecret, expiresIn)`: builds
`jwt.RegisteredClaims` with issuer `chirpy`, issued-at `now`, expires-at
`now + expiresIn` and subject `userID.String()`, signs with
`jwt.SigningMethodHS256`, and passes `tokenSecret` — a Go `string`, not a
`[]byte` — as the key. Returns the Go pair `(string, error)`: the signed
token with `nil` error on success, the empty string with the error
otherwise. -/
def MakeJWT (userID : Nat) (tokenSecret : String) (expiresIn : Int)
    (now : Int) : TokenString × Option JwtError :=
  let claims : RegisteredClaims :=
    { issuer := "chirpy"
      issuedAt := now
      expiresAt := now + expiresIn
      subject := .ofUUID userID }
  match signedString .HS256 claims (.str tokenSecret) with
  | .error e => (.malformed "", some e)
  | .ok signedToken => (signedToken, none)

/-- Model of jwt/v5 `ParseWithClaims(tokenString, claims, keyfunc)` with
auth.go's keyfunc (reject any method that is not `*jwt.SigningMethodHMAC`,
otherwise return `[]byte(tokenSecret)`). The v5 parser: structural parse
(`ErrTokenMalformed`), keyfunc (its error surfaces as unverifiable),
signature verification against the key, then claim validation — with zero
leeway the expiry check passes iff `now` is strictly before `exp`. -/
def ParseWithClaims (tokenString : TokenString) (tokenSecret : String)
    (now : Int) : Except JwtError RegisteredClaims :=
  match tokenString with
  | .malformed _ => .error .tokenMalformed
  | .signed alg claims sig =>
      if alg.isHMAC then
        if sig = hmacSign alg claims tokenSecret then
          if now < claims.expiresAt then .ok claims
          else .error .tokenExpired
        else .error .tokenSignatureInvalid
      else .error .unexpectedSigningMethod

/-- auth.go `ValidateJWT(tokenString, tokenSecret)`: parses and validates
with `ParseWithClaims`, returning `uuid.Nil` with the error on any parse
or validation failure (the `!token.Valid` branch is unreachable in v5
after a nil-error parse, so it does not appear as a separate case), then
parses the subject with `uuid.Parse`, returning `uuid.Nil` with an
`invalid UUID in subject` error when that fails, and otherwise the parsed
user id with `nil` error. -/
def ValidateJWT (tokenString : TokenString) (tokenSecret : String)
    (now : Int) : Nat × Option JwtError :=
  match ParseWithClaims tokenString tokenSecret now with
  | .error e => (uuidNil, some e)
  | .ok claims =>
      match uuidParse claims.subject with
      | none => (uuidNil, some .invalidUUIDSubject)
      | some userID => (userID, none)

/-! ## main.go: the user-creation and chirp-creation handlers

The HTTP layer is modelled at the point after request decoding: each
handler takes the result of `json.Decoder.Decode` (`none` when decoding
failed) and the external database method it calls as a function argument
(`none` from the database stands for a non-nil error). The handler result
records the status code written, the response body written (if any), and
— for the chirp handler — the argument of the `CreateChirp` call when one
was made.
-/

/-- The decoded request body of `POST /api/users` (main.go `paramsSent`). -/
structure ParamsSent where
  email : String
  password : String
  deriving DecidableEq, Repr

/-- `database.CreateUserParams`: what the handler hands to the user store. -/
structure CreateUserParams where
  email : String
  hashedPassword : BHash
  deriving DecidableEq, Repr

/-- A user row as returned by `database.CreateUser`. -/
structure User where
  id : Nat
  createdAt : Int
  updatedAt : Int
  email : String
  hashedPassword : BHash
  deriving DecidableEq, Repr

/-- main.go `responseLower`: the JSON body written on 201, field for
field, including the `password` field. -/
structure UserResponse where
  id : Nat
  created_at : Int
  updated_at : Int
  email : String
  password : BHash
  deriving DecidableEq, Repr

/-- The observable outcome of `addUserHandler`: status code written and
the JSON body written with it, if any. -/
structure UserHandlerResult where
  status : Nat
  body : Option UserResponse
  deriving DecidableEq, Repr

/-- main.go `addUserHandler`: on a decode error writes 500; hashes the
password with `auth.HashPassword` (500 on error); calls
`database.CreateUser` with the email and the hash (500 on error);
otherwise writes 201 with a `responseLower` body copying the created
user's fields, `Password` taken from `createdUsr.HashedPassword`
(`json.Marshal` of this struct cannot fail, so that 500 branch is not a
separate case). -/
def addUserHandler (decoded : Option ParamsSent) (salt : Nat)
    (createUser : CreateUserParams → Option User) : UserHandlerResult :=
  match decoded with
  | none => ⟨500, none⟩
  | some p =>
      match HashPassword p.password salt with
      | .error _ => ⟨500, none⟩
      | .ok hashed =>
          match createUser ⟨p.email, hashed⟩ with
          | none => ⟨500, none⟩
          | some u =>
              ⟨201, some ⟨u.id, u.createdAt, u.updatedAt, u.email, u.hashedPassword⟩⟩

/-- The decoded request body of `POST /api/chirps` (main.go
`inputPayload`). The body is a Go string; its `len` is its UTF-8 byte
count. -/
structure InputPayload where
  body : String
  user_id : Nat
  deriving DecidableEq, Repr

/-- `database.CreateChirpParams`: what the handler hands to the chirp
store. -/
structure CreateChirpParams where
  body : String
  userID : Nat
  deriving DecidableEq, Repr

/-- A chirp row as returned by `database.CreateChirp`. -/
structure Chirp where
  id : Nat
  createdAt : Int
  updatedAt : Int
  body : String
  userID : Nat
  deriving DecidableEq, Repr

/-- The observable outcome of `addChirpsHandler`: the status code written
and the argument of the `database.CreateChirp` call when the handler made
one (`none` when it returned without calling the database). -/
structure ChirpHandlerResult where
  status : Nat
  createCalled : Option CreateChirpParams
  deriving DecidableEq, Repr

/-- main.go `addChirpsHandler`: on a decode error writes 500 without
touching the database; if `len(payload.Body) > 140` writes 400 without
touching the database; if `len(payload.Body) == 0` likewise writes 400;
otherwise calls `database.CreateChirp` with the body and user id, writing
500 on a database error and 201 with the created chirp otherwise. -/
def addChirpsHandler (decoded : Option InputPayload)
    (createChirp : CreateChirpParams → Option Chirp) : ChirpHandlerResult :=
  match decoded with
  | none => ⟨500, none⟩
  | some payload =>
      if 140 < payload.body.utf8ByteSize then ⟨400, none⟩
      else if payload.body.utf8ByteSize = 0 then ⟨400, none⟩
      else
        match createChirp ⟨payload.body, payload.user_id⟩ with
        | none => ⟨500, some ⟨payload.body, payload.user_id⟩⟩
        | some _ => ⟨201, some ⟨payload.body, payload.user_id⟩⟩

/-! ## Theorems -/

/-- Claim C1. The claim states that for every identity, non-empty secret
and positive ttl, `ValidateJWT (MakeJWT id s ttl) s` succeeds and returns
`id` before expiry. On the code this fails at every input: `MakeJWT`
passes its secret as a Go `string` to `SignedString`, and the HMAC signer
of jwt/v5 accepts only `[]byte` keys, so `MakeJWT` always returns the
empty token together with `ErrInvalidKeyType`, and validating that empty
token always fails as malformed. -/
theorem makeJWT_always_invalid_key (id : Nat) (s : String) (ttl now now2 : Int) :
    MakeJWT id s ttl now = (.malformed "", some .invalidKeyType) ∧
    (ValidateJWT (MakeJWT id s ttl now).1 s now2).2 = some .tokenMalformed :=
  ⟨rfl, rfl⟩

/-- Claim C2. For every identity and every ttl, `MakeJWT` with the empty
secret fails: it returns a non-nil error and the empty token. (In the
code this failure is jwt's invalid-key-type error, raised for every
secret passed as a Go string; there is no dedicated empty-secret
check.) -/
theorem makeJWT_empty_secret_fails (id : Nat) (ttl now : Int) :
    ((MakeJWT id "" ttl now).2).isSome = true ∧
    (MakeJWT id "" ttl now).1 = .malformed "" :=
  ⟨rfl, rfl⟩

/-- Claim C3, counterexample. The claim states that `CheckPassword` on a
structurally invalid hash fails with an error distinguished from the
normal mismatch result. At the concrete inputs below, the result for a
malformed hash equals the result for a well-formed hash that merely does
not match the password — both are the same generic error — so the two
cases are not distinguished. -/
theorem checkPassword_error_not_distinguished :
    CheckPassword (.malformed "notbcrypt") "pw" =
      CheckPassword (.wellFormed defaultCost 0 (bcryptKDF "otherpw" 0 defaultCost)) "pw" ∧
    CheckPassword (.malformed "notbcrypt") "pw" = some "invalid password" := by
  exact ⟨by decide, rfl⟩

/-- Claim C3, amended. `CheckPassword` on a structurally invalid hash
does fail (it never reports a false match), but the error is the single
generic `invalid password` error, the same value `CheckPassword` returns
on a normal password mismatch; the two cases are not distinguished. -/
theorem checkPassword_invalid_hash_generic_error (p raw : String) :
    CheckPassword (.malformed raw) p = some "invalid password" ∧
    ∀ (cost salt : Nat) (q : String), q ≠ p →
      CheckPassword (.wellFormed cost salt (bcryptKDF q salt cost)) p
        = some "invalid password" := by
  refine ⟨rfl, ?_⟩
  intro cost salt q hq
  simp [CheckPassword, compareHashAndPassword, bcryptKDF, hq]

/-- Witness for the amended claim C3 at concrete inputs. -/
theorem checkPassword_invalid_hash_generic_error_witness :
    CheckPassword (.malformed "bad") "pw" = some "invalid password" ∧
    CheckPassword (.wellFormed 10 0 (bcryptKDF "otherpw" 0 10)) "pw"
      = some "invalid password" :=
  ⟨(checkPassword_invalid_hash_generic_error "pw" "bad").1,
   (checkPassword_invalid_hash_generic_error "pw" "bad").2 10 0 "otherpw" (by decide)⟩

/-- Claim C4. For every password within bcrypt's 72-byte input limit,
hashing then verifying succeeds: `HashPassword` returns a well-formed
hash of the password and `CheckPassword` on that hash and the same
password reports a match (returns nil). -/
theorem hashPassword_roundtrip (p : String) (salt : Nat)
    (hp : p.utf8ByteSize ≤ 72) :
    HashPassword p salt
      = .ok (.wellFormed defaultCost salt (bcryptKDF p salt defaultCost)) ∧
    CheckPassword (.wellFormed defaultCost salt (bcryptKDF p salt defaultCost)) p
      = none := by
  constructor
  · unfold HashPassword generateFromPassword
    rw [if_neg (by omega)]
  · simp [CheckPassword, compareHashAndPassword]

/-- Witness for claim C4 at a concrete password and salt. -/
theorem hashPassword_roundtrip_witness :
    HashPassword "hunter2" 3
      = .ok (.wellFormed defaultCost 3 (bcryptKDF "hunter2" 3 defaultCost)) ∧
    CheckPassword (.wellFormed defaultCost 3 (bcryptKDF "hunter2" 3 defaultCost)) "hunter2"
      = none :=
  hashPassword_roundtrip "hunter2" 3 (by decide)

/-- Claim C5. Every token whose declared signing algorithm is not in the
HMAC family is rejected by `ValidateJWT` with the `unexpected signing
method` error, for every secret and every attached signature — including
the signature that would verify under that secret. -/
theorem validateJWT_rejects_non_hmac (alg : Alg) (claims : RegisteredClaims)
    (sig : Sig) (s : String) (now : Int) (h : alg.isHMAC = false) :
    ValidateJWT (.signed alg claims sig) s now
      = (uuidNil, some .unexpectedSigningMethod) := by
  simp [ValidateJWT, ParseWithClaims, h]

/-- Witness for claim C5: an RS256 token carrying the very signature that
would verify under the secret is still rejected. -/
theorem validateJWT_rejects_non_hmac_witness :
    ValidateJWT
        (.signed .RS256 ⟨"chirpy", 0, 100, .ofUUID 5⟩
          (hmacSign .RS256 ⟨"chirpy", 0, 100, .ofUUID 5⟩ "k")) "k" 0
      = (uuidNil, some .unexpectedSigningMethod) :=
  validateJWT_rejects_non_hmac _ _ _ _ _ rfl

/-- Claim C6. On every failing execution of `ValidateJWT` — whatever the
failure — the returned identity is `uuid.Nil`, never a partially parsed
value. -/
theorem validateJWT_failure_yields_nil_uuid (t : TokenString) (s : String)
    (now : Int) (h : ((ValidateJWT t s now).2).isSome = true) :
    (ValidateJWT t s now).1 = uuidNil := by
  unfold ValidateJWT at h ⊢
  rcases hp : ParseWithClaims t s now with e | claims
  · simp [hp]
  · rcases hu : uuidParse claims.subject with _ | id
    · simp [hp, hu]
    · simp [hp, hu] at h

/-- Witness for claim C6 at a concrete malformed token. -/
theorem validateJWT_failure_yields_nil_uuid_witness :
    (ValidateJWT (.malformed "junk") "k" 0).1 = uuidNil :=
  validateJWT_failure_yields_nil_uuid (.malformed "junk") "k" 0 rfl

/-- Claim C7. For every identity, secret, ttl and differing second
secret, validating the token issued under the first secret with the
second secret fails. (On the code this holds for every second secret,
different or not: issuance already failed, so validation receives the
empty token and rejects it as malformed.) -/
theorem validateJWT_wrong_secret_fails (id : Nat) (s : String) (ttl now : Int)
    (s2 : String) (now2 : Int) (h : s2 ≠ s) :
    ((ValidateJWT (MakeJWT id s ttl now).1 s2 now2).2).isSome = true :=
  rfl

/-- Witness for claim C7 at concrete secrets. -/
theorem validateJWT_wrong_secret_fails_witness :
    ((ValidateJWT (MakeJWT 5 "k1" 3600 1000).1 "k2" 1001).2).isSome = true :=
  validateJWT_wrong_secret_fails 5 "k1" 3600 1000 "k2" 1001 (by decide)

/-- Claim C8. The claim states that a token issued with ttl of minus one
hour fails validation with an expired-kind error. On the code the
issuance itself fails (string-typed HMAC key), so `ValidateJWT` receives
the empty token and fails with the malformed-token error, which is not
the expired kind. (The expiry gate itself is implemented correctly in
`ValidateJWT`; see the two theorems following this one.) -/
theorem negative_ttl_token_fails_malformed_not_expired :
    (ValidateJWT (MakeJWT 0 "k1" (-3600) 1000).1 "k1" 1000).2
      = some .tokenMalformed ∧
    JwtError.tokenMalformed ≠ JwtError.tokenExpired :=
  ⟨rfl, by decide⟩

/-- The expiry gate of the token parser: a parse that succeeds at time
`now` implies the token's expires-at is strictly in the future. -/
theorem parseWithClaims_ok_not_expired (alg : Alg) (claims c : RegisteredClaims)
    (sig : Sig) (s : String) (now : Int)
    (h : ParseWithClaims (.signed alg claims sig) s now = .ok c) :
    now < claims.expiresAt := by
  by_cases h1 : alg.isHMAC = true
  · by_cases h2 : sig = hmacSign alg claims s
    · by_cases h3 : now < claims.expiresAt
      · exact h3
      · simp [ParseWithClaims, h1, h2, h3] at h
    · simp [ParseWithClaims, h1, h2] at h
  · simp [ParseWithClaims, h1] at h

/-- Once a token is at or past its expiry, no later validation of it can
succeed. -/
theorem validateJWT_expired_stays_failed (alg : Alg) (claims : RegisteredClaims)
    (sig : Sig) (s : String) (now now2 : Int)
    (hexp : claims.expiresAt ≤ now) (hle : now ≤ now2) :
    ((ValidateJWT (.signed alg claims sig) s now2).2).isSome = true := by
  by_cases h1 : alg.isHMAC = true
  · by_cases h2 : sig = hmacSign alg claims s
    · have h3 : ¬ now2 < claims.expiresAt := by omega
      simp [ValidateJWT, ParseWithClaims, h1, h2, h3]
    · simp [ValidateJWT, ParseWithClaims, h1, h2]
  · simp [ValidateJWT, ParseWithClaims, h1]

/-- Claim C9. On every successful user creation — decode succeeded,
hashing succeeded, and the user store returned a row — the handler writes
status 201 with a body whose `password` field is exactly the stored
hashed password of the created user, disclosing the hash to the external
caller. -/
theorem addUserHandler_discloses_stored_hash (p : ParamsSent) (salt : Nat)
    (createUser : CreateUserParams → Option User) (h : BHash) (u : User)
    (hh : HashPassword p.password salt = .ok h)
    (hc : createUser ⟨p.email, h⟩ = some u) :
    addUserHandler (some p) salt createUser =
      ⟨201, some ⟨u.id, u.createdAt, u.updatedAt, u.email, u.hashedPassword⟩⟩ := by
  unfold addUserHandler
  simp only []
  rw [hh]
  simp only []
  rw [hc]

/-- Witness for claim C9 at a concrete request against a store that
returns the row it was given. -/
theorem addUserHandler_discloses_stored_hash_witness :
    addUserHandler (some ⟨"a@b.c", "pw"⟩) 0
        (fun q => some ⟨7, 1, 1, q.email, q.hashedPassword⟩) =
      ⟨201, some ⟨7, 1, 1, "a@b.c",
        .wellFormed defaultCost 0 (bcryptKDF "pw" 0 defaultCost)⟩⟩ :=
  addUserHandler_discloses_stored_hash ⟨"a@b.c", "pw"⟩ 0
    (fun q => some ⟨7, 1, 1, q.email, q.hashedPassword⟩)
    (.wellFormed defaultCost 0 (bcryptKDF "pw" 0 defaultCost))
    ⟨7, 1, 1, "a@b.c", .wellFormed defaultCost 0 (bcryptKDF "pw" 0 defaultCost)⟩
    rfl rfl

/-- Claim C10. The chirp handler calls `database.CreateChirp` only when
the decoded body's byte length is between 1 and 140 inclusive, and for an
empty or over-long body it writes 400 without calling the database. -/
theorem addChirpsHandler_length_gate (decoded : Option InputPayload)
    (createChirp : CreateChirpParams → Option Chirp) :
    (((addChirpsHandler decoded createChirp).createCalled).isSome = true →
      ∃ p, decoded = some p ∧
        1 ≤ p.body.utf8ByteSize ∧ p.body.utf8ByteSize ≤ 140) ∧
    (∀ p, decoded = some p →
      (p.body.utf8ByteSize = 0 ∨ 140 < p.body.utf8ByteSize) →
      addChirpsHandler decoded createChirp = ⟨400, none⟩) := by
  constructor
  · intro h
    cases decoded with
    | none => simp [addChirpsHandler] at h
    | some p =>
      refine ⟨p, rfl, ?_⟩
      by_cases h1 : 140 < p.body.utf8ByteSize
      · simp [addChirpsHandler, h1] at h
      · by_cases h2 : p.body.utf8ByteSize = 0
        · simp [addChirpsHandler, h1, h2] at h
        · omega
  · intro p hp hbad
    subst hp
    rcases hbad with h0 | hbig
    · have h1 : ¬ 140 < p.body.utf8ByteSize := by omega
      simp [addChirpsHandler, h0, h1]
    · simp [addChirpsHandler, hbig]

/-- Witness for claim C10: a 5-byte body is in range, and an empty body
yields 400 with no database call. -/
theorem addChirpsHandler_length_gate_witness :
    (∃ p, (some (⟨"hello", 3⟩ : InputPayload)) = some p ∧
      1 ≤ p.body.utf8ByteSize ∧ p.body.utf8ByteSize ≤ 140) ∧
    addChirpsHandler (some ⟨"", 3⟩) (fun _ => none) = ⟨400, none⟩ :=
  ⟨(addChirpsHandler_length_gate (some ⟨"hello", 3⟩)
      (fun _ => some ⟨1, 0, 0, "hello", 3⟩)).1 (by decide),
   (addChirpsHandler_length_gate (some ⟨"", 3⟩) (fun _ => none)).2
      ⟨"", 3⟩ rfl (Or.inl rfl)⟩

end Chirpy
